import Mathlib

/-!
Shallow embedding of the billing scheduler and payment state machine of
`app/iamport/iamport.service.js` (castr-middleware-payment-kr).

Modelling conventions:

* Instants are integers: milliseconds on the Seoul local timeline.  The
  service pins every date computation to the `ASIA/SEOUL` timezone, which
  has a fixed UTC+9 offset and no daylight-saving transitions, so a civil
  Seoul instant is an affine (hence order- and arithmetic-preserving)
  shift of the UTC epoch timeline and adding `w` weeks is adding
  `w * 7 * 86400000` milliseconds.  `moment.tz(...).hour(0).minute(0)
  .second(0).millisecond(0)` is flooring to a multiple of a day.
* The three MongoDB collections (`payment-methods`, `payment-schedule`,
  `payment-transactions`) are lists of records.  `findOne`/`find` with a
  filter is `List.find?`/`List.filter`; `updateOne` updates the first
  matching document; `insertOne` appends.  Store writes are assumed to
  succeed (store failures are logged and out of scope per the service's
  error handling).
* The gateway-roundtripped `custom_data` payload is built with
  `JSON.stringify` and read back with `JSON.parse` after the gateway
  echoes the blob verbatim.  `JSON.parse ∘ JSON.stringify` is the
  identity on JSON trees, so the channel is modelled at the tree level
  (`JsValue`).  A JavaScript `Date` is stringified to its ISO-8601
  instant string and the reconciler re-reads it with `moment(...)`;
  ISO-8601 printing and parsing are mutually inverse external library
  operations, so the value the channel carries for a date is its
  instant, modelled by the dedicated constructor `JsValue.instant`.
* Plain `String`s stand for the enum string values (`'PAID'`,
  `'SCHEDULED'`, ...), exactly as the source stores them.
-/

namespace Castr

/-- Milliseconds in a day. -/
def msPerDay : Int := 86400000

/-- `billing_plan_type`: plan identifier to cadence in weeks
(`4_WEEK` → 4, `26_WEEK` → 26, `52_WEEK` → 52); `none` for an unknown
plan (a JavaScript `undefined` lookup). -/
def billing_plan_type (plan : String) : Option Nat :=
  if plan = "4_WEEK" then some 4
  else if plan = "26_WEEK" then some 26
  else if plan = "52_WEEK" then some 52
  else none

/-- `status_type`: lookup of a gateway status key
(`paid`/`cancelled`/`failed`/`pending`) to the stored status value;
`none` for an unknown key (a JavaScript `undefined` lookup). -/
def status_type (s : String) : Option String :=
  if s = "paid" then some "PAID"
  else if s = "cancelled" then some "REFUNDED"
  else if s = "failed" then some "FAILED"
  else if s = "pending" then some "PENDING"
  else none

/-- A document of the `payment-methods` collection. -/
structure PaymentMethod where
  business_id : String
  customer_uid : String
  default_method : Bool
deriving DecidableEq

/-- The display-name triple produced by `_generateName`. -/
structure NameTriple where
  short : String
  long : String
  long_kr : String
deriving DecidableEq

/-- The billing intent handed to `pay` (`payment_params`). -/
structure PayParams where
  business_id : String
  merchant_uid : String
  type : String
  billing_plan : String
  pay_date : Int
  amount : Int
  vat : Int
deriving DecidableEq

/-- The decoded `custom_data` payload (ConfirmationMetadata). -/
structure CustomData where
  business_id : String
  merchant_uid : String
  customer_uid : String
  name : NameTriple
  type : String
  billing_plan : String
  pay_date : Int
  amount : Int
  cancel_amount : Int
  vat : Int
deriving DecidableEq

/-- A record of a failed charge pushed onto a schedule entry's
`failures` array. -/
structure FailureRecord where
  imp_uid : String
  params : CustomData
  reason : String
  time_failed : Int
deriving DecidableEq

/-- A document of the `payment-schedule` collection
(BillingScheduleEntry). -/
structure ScheduleEntry where
  merchant_uid : String
  business_id : String
  schedule : Int
  amount : Int
  vat : Int
  billing_plan : String
  status : String
  failures : List FailureRecord
deriving DecidableEq

/-- A document of the `payment-transactions` collection. -/
structure Transaction where
  business_id : String
  imp_uid : String
  merchant_uid : String
  type : String
  name : NameTriple
  currency : String
  amount : Int
  vat : Int
  customer_uid : String
  pay_method : String
  card_name : String
  status : String
  receipt_url : String
  pay_date : Int
  time_paid : Int
deriving DecidableEq

/-- The persistent state: the three collections the core touches. -/
structure DB where
  methods : List PaymentMethod
  schedule : List ScheduleEntry
  transactions : List Transaction
deriving DecidableEq

/-- A JSON tree, the value carried by the opaque `custom_data` channel.
`instant` is a JavaScript `Date`: `JSON.stringify` renders it as its
ISO-8601 string and the reconciler's `moment(...)` parses that string
back to the same instant, so the channel transports the instant value. -/
inductive JsValue where
  | str (s : String)
  | num (n : Int)
  | instant (ms : Int)
  | obj (fields : List (String × JsValue))
  | jnull

/-- Property access `j[key]` on a parsed JSON object. -/
def jsGet (j : JsValue) (key : String) : Option JsValue :=
  match j with
  | .obj fields => (fields.find? (fun kv => kv.1 == key)).map (fun kv => kv.2)
  | _ => none

def jsStr : JsValue → Option String
  | .str s => some s
  | _ => none

def jsNum : JsValue → Option Int
  | .num n => some n
  | _ => none

def jsInstant : JsValue → Option Int
  | .instant ms => some ms
  | _ => none

/-- `updateOne`: Mongo updates the first document matching the filter
`p`, applying the update `f`; no-op when nothing matches. -/
def updateFirst (l : List α) (p : α → Bool) (f : α → α) : List α :=
  match l with
  | [] => []
  | x :: xs => if p x then f x :: xs else x :: updateFirst xs p f

/-- Year, month, day of the civil (proleptic Gregorian) date of a given
day number (days since 1970-01-01), by the standard era decomposition.
Used only to render `M/D` strings inside display names. -/
def civilFromDays (z0 : Int) : Int × Int × Int :=
  let z := z0 + 719468
  let era := z / 146097
  let doe := z - era * 146097
  let yoe := (doe - doe / 1460 + doe / 36524 - doe / 146096) / 365
  let y := yoe + era * 400
  let doy := doe - (365 * yoe + yoe / 4 - yoe / 100)
  let mp := (5 * doy + 2) / 153
  let d := doy - (153 * mp + 2) / 5 + 1
  let m := mp + (if mp < 10 then 3 else -9)
  (y + (if m ≤ 2 then 1 else 0), m, d)

/-- `moment(ms).format('M/D')` on the Seoul local timeline. -/
def formatMD (ms : Int) : String :=
  let c := civilFromDays (ms / msPerDay)
  toString c.2.1 ++ "/" ++ toString c.2.2

/-- `_generateName`: builds the payment display name.  The source's
`menucast` branch compares `params.type` against the undefined key
`payment_type.menucast` and is unreachable for the intent types in
scope (`INITIAL`, `SCHEDULED`, `REFUND`), so only the subscription
branch is embedded.  An unknown plan yields a degenerate name (`NaN`
arithmetic in the source); no claim depends on that string. -/
def _generateName (params : PayParams) : NameTriple :=
  let w := (billing_plan_type params.billing_plan).getD 0
  let start := params.pay_date
  let endD := start + (w * 7 : Int) * msPerDay - msPerDay
  { short := "CAS#" ++ params.business_id ++ "=" ++ formatMD start ++ "-"
      ++ formatMD endD ++ "(" ++ toString w ++ "WK)",
    long := "Castr subscription #" ++ params.business_id ++ " "
      ++ formatMD start ++ "-" ++ formatMD endD ++ " (" ++ params.billing_plan ++ ")",
    long_kr := "캐스터 정기구독 #" ++ params.business_id ++ " "
      ++ formatMD start ++ "-" ++ formatMD endD ++ " ("
      ++ toString w ++ "주)" }

/-- The name object serialized inside `custom_data`. -/
def nameToJson (n : NameTriple) : JsValue :=
  .obj [("short", .str n.short), ("long", .str n.long), ("long_kr", .str n.long_kr)]

/-- Reading the name object back out of parsed `custom_data`. -/
def nameFromJson (j : JsValue) : Option NameTriple := do
  let s ← jsGet j "short" >>= jsStr
  let l ← jsGet j "long" >>= jsStr
  let k ← jsGet j "long_kr" >>= jsStr
  pure ⟨s, l, k⟩

/-- The `custom_data` object built by `pay` (iamport.service.js lines
516–527): the full billing intent serialized for the gateway round
trip. -/
def buildCustomData (p : PayParams) (default_method : PaymentMethod) : JsValue :=
  .obj [
    ("business_id", .str p.business_id),
    ("merchant_uid", .str p.merchant_uid),
    ("customer_uid", .str default_method.customer_uid),
    ("name", nameToJson (_generateName p)),
    ("type", .str p.type),
    ("billing_plan", .str p.billing_plan),
    ("pay_date", .instant p.pay_date),
    ("amount", .num p.amount),
    ("cancel_amount", .num p.amount),
    ("vat", .num p.vat)]

/-- The reconciler's decoding of `custom_data` (`JSON.parse` plus the
field accesses `custom_data.business_id`, `.merchant_uid`, ... used in
`paymentHook`); `none` models a decoding throw. -/
def parseCustomData (j : JsValue) : Option CustomData := do
  let b ← jsGet j "business_id" >>= jsStr
  let mu ← jsGet j "merchant_uid" >>= jsStr
  let cu ← jsGet j "customer_uid" >>= jsStr
  let nm ← jsGet j "name" >>= nameFromJson
  let ty ← jsGet j "type" >>= jsStr
  let bp ← jsGet j "billing_plan" >>= jsStr
  let pd ← jsGet j "pay_date" >>= jsInstant
  let am ← jsGet j "amount" >>= jsNum
  let ca ← jsGet j "cancel_amount" >>= jsNum
  let v ← jsGet j "vat" >>= jsNum
  pure ⟨b, mu, cu, nm, ty, bp, pd, am, ca, v⟩

/-- The charge request handed to `this.iamport.subscribe.again`. -/
structure ChargeRequest where
  merchant_uid : String
  customer_uid : String
  name : String
  amount : Int
  cancel_amount : Int
  vat : Int
  custom_data : JsValue

/-- The gateway's synchronous charge result (`iamport_result`), also
the shape delivered to the Outcome Reconciler.  `custom_data` is the
blob echoed verbatim by the gateway. -/
structure IamportResult where
  status : String
  imp_uid : String
  currency : String
  pay_method : String
  card_name : String
  receipt_url : String
  fail_reason : String
  paid_at : Int
  failed_at : Int
  custom_data : JsValue

/-- A transport-level gateway failure (network/auth: the rejection of
the `subscribe.again` promise). -/
structure GatewayError where
  code : String
  message : String

/-- `pay`'s rejection values (the shapes of the `error` objects the
source rejects with). -/
inductive PayError where
  /-- No default payment method for the business: rejected before any
  gateway call with code `castr_payment_error`. -/
  | noDefaultMethod (params : PayParams) (code message : String)
  /-- Transport success but the immediate status is `failed`: rejected
  with the deserialized metadata and the gateway's decline reason. -/
  | declined (params : Option CustomData) (code : Option String) (message : String)
  /-- Transport failure: rejected with the submitted parameters. -/
  | gatewayError (req : ChargeRequest) (code message : String)

/-- What one call to `pay` produces: the settled promise, the
reconciler invocations scheduled with `setTimeout(this.paymentHook, 0,
iamport_result)`, and the gateway calls made. -/
structure PayOutput where
  result : Except PayError IamportResult
  hooks : List IamportResult
  gateway_calls : List ChargeRequest

/-- Builds the gateway request of `pay` (iamport.service.js lines
509–528). -/
def buildChargeRequest (p : PayParams) (default_method : PaymentMethod) : ChargeRequest :=
  { merchant_uid := p.merchant_uid,
    customer_uid := default_method.customer_uid,
    name := (_generateName p).short,
    amount := p.amount,
    cancel_amount := p.amount,
    vat := p.vat,
    custom_data := buildCustomData p default_method }

/-- `pay(payment_params)` (iamport.service.js lines 487–560).  The
gateway is a parameter `gw` mapping the built request to either a
transport error or an immediate result. -/
def pay (p : PayParams) (methods : List PaymentMethod)
    (gw : ChargeRequest → Except GatewayError IamportResult) : PayOutput :=
  match methods.find? (fun m => m.business_id == p.business_id && m.default_method) with
  | none =>
    { result := .error (.noDefaultMethod p "castr_payment_error"
        ("Could not find a default payment method for the business ("
          ++ p.business_id ++ ").")),
      hooks := [], gateway_calls := [] }
  | some default_method =>
    let params := buildChargeRequest p default_method
    match gw params with
    | .error e =>
      { result := .error (.gatewayError params e.code e.message),
        hooks := [], gateway_calls := [params] }
    | .ok iamport_result =>
      if status_type iamport_result.status = some "FAILED" then
        { result := .error (.declined (parseCustomData params.custom_data)
            none iamport_result.fail_reason),
          hooks := [iamport_result], gateway_calls := [params] }
      else
        { result := .ok iamport_result,
          hooks := [iamport_result], gateway_calls := [params] }

/-- The `payment-transactions` document inserted by the reconciler's
PAID branch (iamport.service.js lines 628–644). -/
def mkTransaction (cd : CustomData) (r : IamportResult) : Transaction :=
  { business_id := cd.business_id,
    imp_uid := r.imp_uid,
    merchant_uid := cd.merchant_uid,
    type := cd.type,
    name := cd.name,
    currency := r.currency,
    amount := cd.amount,
    vat := cd.vat,
    customer_uid := cd.customer_uid,
    pay_method := r.pay_method,
    card_name := r.card_name,
    status := "PAID",
    receipt_url := r.receipt_url,
    pay_date := cd.pay_date,
    time_paid := r.paid_at * 1000 }

/-- `merchant_uid.match(/\d+$/)`: the maximal all-digit suffix. -/
def digitSuffix (s : String) : String :=
  ⟨(s.data.reverse.takeWhile Char.isDigit).reverse⟩

/-- `parseInt` on an all-digit string. -/
def parseNatDigits (s : String) : Nat :=
  s.data.foldl (fun a c => a * 10 + (c.toNat - 48)) 0

/-- Derivation of the next cycle's merchant uid (lines 671–672):
`parseInt(custom_data.merchant_uid.match(/\d+$/)[0]) + 1`, rebuilt as
`business_id + '_ch' + next`.  `none` when the uid has no digit suffix
(the source would throw reading `[0]` of a null match, aborting the
next-entry insertion). -/
def nextMerchantUid (business_id merchant_uid : String) : Option String :=
  let suffix := digitSuffix merchant_uid
  if suffix = "" then none
  else some (business_id ++ "_ch" ++ toString (parseNatDigits suffix + 1))

/-- Next pay date (lines 664–669): the intended pay date plus the
plan's cadence in weeks, floored to Seoul local midnight. -/
def nextPayDate (pay_date : Int) (weeks : Nat) : Int :=
  let t := pay_date + (weeks : Int) * 7 * msPerDay
  t - t % msPerDay

/-- The reconciler's PAID branch (lines 624–691): insert the
transaction; if the intent was `SCHEDULED` set the matching schedule
entry's status to `PAID`; then insert the next cycle's `PENDING`
entry.  A metadata decoding throw mutates nothing; a missing digit
suffix aborts before the next-entry insertion. -/
def hookPaid (r : IamportResult) (db : DB) : DB :=
  match parseCustomData r.custom_data with
  | none => db
  | some custom_data =>
    let db1 := { db with transactions := db.transactions ++ [mkTransaction custom_data r] }
    let db2 :=
      if custom_data.type = "SCHEDULED" then
        { db1 with schedule := (updateFirst db1.schedule
            (fun e => e.merchant_uid == custom_data.merchant_uid)
            (fun e => { e with status := "PAID" })) }
      else db1
    match nextMerchantUid custom_data.business_id custom_data.merchant_uid with
    | none => db2
    | some next_merchant_uid =>
      { db2 with schedule := db2.schedule ++ [{
          merchant_uid := next_merchant_uid,
          business_id := custom_data.business_id,
          schedule := nextPayDate custom_data.pay_date
            ((billing_plan_type custom_data.billing_plan).getD 0),
          amount := custom_data.amount,
          vat := custom_data.vat,
          billing_plan := custom_data.billing_plan,
          status := "PENDING",
          failures := [] }] }

/-- The failure record built by the reconciler's FAILED branch (lines
700–705). -/
def mkFailure (r : IamportResult) (custom_data : CustomData) : FailureRecord :=
  { imp_uid := r.imp_uid,
    params := custom_data,
    reason := r.fail_reason,
    time_failed := r.failed_at * 1000 }

/-- Most-recent-first order on failure records (`$sort: { time_failed:
-1 }`). -/
def failureDesc (a b : FailureRecord) : Prop := b.time_failed ≤ a.time_failed

instance : DecidableRel failureDesc := fun a b => Int.decLe b.time_failed a.time_failed

instance : IsTotal FailureRecord failureDesc :=
  ⟨fun a b => le_total b.time_failed a.time_failed⟩

instance : IsTrans FailureRecord failureDesc :=
  ⟨fun _ _ _ hab hbc => le_trans hbc hab⟩

/-- Mongo's `$push { $each: [failure], $sort: { time_failed: -1 } }`:
append the new element, then sort the whole array most-recent-first. -/
def pushSortedFailures (failures : List FailureRecord) (failure : FailureRecord) :
    List FailureRecord :=
  List.insertionSort failureDesc (failures ++ [failure])

/-- The reconciler's FAILED branch (lines 696–727): only a `SCHEDULED`
intent mutates state — the matching entry's status becomes `FAILED`
and the failure record is pushed into its sorted `failures` array. -/
def hookFailed (r : IamportResult) (db : DB) : DB :=
  match parseCustomData r.custom_data with
  | none => db
  | some custom_data =>
    if custom_data.type = "SCHEDULED" then
      { db with schedule := (updateFirst db.schedule
          (fun e => e.merchant_uid == custom_data.merchant_uid)
          (fun e =>
            { e with
              status := "FAILED",
              failures := pushSortedFailures e.failures (mkFailure r custom_data) })) }
    else db

/-- `paymentHook(iamport_result)` (lines 621–733): the outcome
reconciler, dispatching on `status_type[iamport_result.status]`.  The
`REFUNDED` (cancelled) case and the default case mutate nothing. -/
def paymentHook (r : IamportResult) (db : DB) : DB :=
  if status_type r.status = some "PAID" then hookPaid r db
  else if status_type r.status = some "FAILED" then hookFailed r db
  else db

/-- The daily scan's selection filter (lines 74–78): entries with
`status: PENDING` and `schedule <= ` the start of the current Seoul
local day (`todayStart`, the value of `moment.tz('ASIA/SEOUL').hour(0)
.minute(0).second(0).millisecond(0)`). -/
def dueEntries (entries : List ScheduleEntry) (todayStart : Int) : List ScheduleEntry :=
  entries.filter (fun e => e.status == "PENDING" && decide (e.schedule ≤ todayStart))

/-- The `schedule_params` built for one due entry (lines 83–91). -/
def scheduleParamsOf (document : ScheduleEntry) : PayParams :=
  { business_id := document.business_id,
    merchant_uid := document.merchant_uid,
    type := "SCHEDULED",
    billing_plan := document.billing_plan,
    pay_date := document.schedule,
    amount := document.amount,
    vat := document.vat }

/-- `_checkScheduledPayments` (lines 67–120), reduced to the billing
intents it submits via `pay`: one `SCHEDULED` intent per due entry. -/
def scanSubmissions (entries : List ScheduleEntry) (todayStart : Int) : List PayParams :=
  (dueEntries entries todayStart).map scheduleParamsOf

/-- The response of `setAsDefault`. -/
inductive SetDefaultResp where
  /-- `success: false`, code `castr_payment_error`, no method matched
  the given `customer_uid`. -/
  | notFound (message : String)
  /-- `success: true` with the customer uid as data. -/
  | ok (customer_uid : String)
deriving DecidableEq

/-- `setAsDefault`'s first update (lines 314–319): unset the first
document with `business_id` and `default_method: true`. -/
def unsetDefault (business_id : String) (methods : List PaymentMethod) :
    List PaymentMethod :=
  updateFirst methods
    (fun m => m.business_id == business_id && m.default_method)
    (fun m => { m with default_method := false })

/-- `setAsDefault`'s second update (lines 322–324): set the first
document with the given `customer_uid` as default.  Note the filter
carries no `business_id`. -/
def setDefaultByUid (customer_uid : String) (methods : List PaymentMethod) :
    List PaymentMethod :=
  updateFirst methods
    (fun m => m.customer_uid == customer_uid)
    (fun m => { m with default_method := true })

/-- `setAsDefault(business_id, customer_uid)` (lines 310–375): the
unset-then-set sequence, the `matchedCount === 0` error path, and —
on success — the fire-and-forget resubmission of an outstanding
`FAILED` schedule entry with `pay_date = moment().toDate()` (`now`).
Returns the new state, the response sent, and the billing intents
handed to `pay` (whose outcomes the source discards with
`.then(() => \x7b \x7d).catch(() => \x7b \x7d)`). -/
def setAsDefault (business_id customer_uid : String) (db : DB) (now : Int) :
    DB × SetDefaultResp × List PayParams :=
  let methods1 := unsetDefault business_id db.methods
  if methods1.any (fun m => m.customer_uid == customer_uid) then
    let methods2 := setDefaultByUid customer_uid methods1
    let resubmissions :=
      match db.schedule.find?
          (fun e => e.business_id == business_id && e.status == "FAILED") with
      | none => []
      | some failed_payment =>
        [{ business_id := failed_payment.business_id,
           merchant_uid := failed_payment.merchant_uid,
           type := "SCHEDULED",
           billing_plan := failed_payment.billing_plan,
           pay_date := now,
           amount := failed_payment.amount,
           vat := failed_payment.vat }]
    ({ db with methods := methods2 }, .ok customer_uid, resubmissions)
  else
    ({ db with methods := methods1 },
     .notFound ("No payment method was found for the given 'customer_uid' ("
       ++ customer_uid ++ ")."),
     [])

/-- The store write of `createPaymentMethod` after a successful gateway
registration (lines 232–249): an upsert keyed on `(business_id,
customer_uid)` whose `$set` always includes `default_method: false`. -/
def upsertPaymentMethod (business_id customer_uid : String)
    (methods : List PaymentMethod) : List PaymentMethod :=
  if methods.any (fun m => m.business_id == business_id && m.customer_uid == customer_uid) then
    updateFirst methods
      (fun m => m.business_id == business_id && m.customer_uid == customer_uid)
      (fun m => { m with default_method := false })
  else
    methods ++ [{ business_id := business_id
                  customer_uid := customer_uid
                  default_method := false }]

/-- The response of `changeSubscription`. -/
inductive ChangeSubResp where
  /-- `success: false`: no `PENDING`/`FAILED` entry for the business. -/
  | noActiveSchedule (message : String)
  /-- `success: true`. -/
  | ok
deriving DecidableEq

/-- Filter of `changeSubscription`'s `findOne` (lines 436–439):
the business's entry with status `PENDING` or `FAILED`. -/
def activeEntry (business_id : String) (e : ScheduleEntry) : Bool :=
  e.business_id == business_id && (e.status == "PENDING" || e.status == "FAILED")

/-- `changeSubscription(business_id)` with body `billing_plan`,
`amount` (lines 429–479): find the in-flight entry; if none, error and
no mutation; otherwise update the first entry with its `merchant_uid`,
setting only `billing_plan` and `amount`. -/
def changeSubscription (business_id new_billing_plan : String) (new_amount : Int)
    (db : DB) : DB × ChangeSubResp :=
  match db.schedule.find? (activeEntry business_id) with
  | none =>
    (db, .noActiveSchedule ("Business (" ++ business_id
      ++ ") is either invalid, not yet subscribed, or is missing next payment schedule"))
  | some scheduled_payment =>
    ({ db with schedule := (updateFirst db.schedule
        (fun e => e.merchant_uid == scheduled_payment.merchant_uid)
        (fun e =>
          { e with
            billing_plan := new_billing_plan,
            amount := new_amount })) },
     .ok)

/-- The single-default invariant of the spec: at most one stored
payment method per business has `default_method = true`.  Quantifying
over the businesses present keeps it decidable; absent businesses have
count zero. -/
def atMostOneDefault (methods : List PaymentMethod) : Prop :=
  ∀ m ∈ methods,
    methods.countP (fun x => x.business_id == m.business_id && x.default_method) ≤ 1

instance (methods : List PaymentMethod) : Decidable (atMostOneDefault methods) :=
  List.decidableBAll _ methods

/-- Number of default methods a given business has. -/
def countDefaults (business_id : String) (methods : List PaymentMethod) : Nat :=
  methods.countP (fun m => m.business_id == business_id && m.default_method)

/-! ### Library lemmas about the embedded store operations -/

theorem updateFirst_append_cons {α : Type} (l1 l2 : List α) (a : α)
    (p : α → Bool) (f : α → α)
    (h1 : ∀ x ∈ l1, p x = false) (ha : p a = true) :
    updateFirst (l1 ++ a :: l2) p f = l1 ++ f a :: l2 := by
  induction l1 with
  | nil => simp [updateFirst, ha]
  | cons x xs ih =>
    have hx : p x = false := h1 x (by simp)
    simp only [List.cons_append, updateFirst, hx]
    simp only [Bool.false_eq_true, if_false]
    exact congrArg (x :: ·) (ih (fun y hy => h1 y (by simp [hy])))

theorem find?_decomp {α : Type} {l : List α} {p : α → Bool} {a : α}
    (h : l.find? p = some a) :
    ∃ l1 l2, l = l1 ++ a :: l2 ∧ ∀ x ∈ l1, p x = false := by
  induction l with
  | nil => simp [List.find?] at h
  | cons x xs ih =>
    by_cases hx : p x
    · refine ⟨[], xs, ?_, by simp⟩
      simp [List.find?, hx] at h
      simp [h]
    · rw [List.find?_cons_of_neg _ hx] at h
      obtain ⟨l1, l2, hdec, hall⟩ := ih h
      exact ⟨x :: l1, l2, by simp [hdec],
        fun y hy => by
          rcases List.mem_cons.mp hy with rfl | hmem
          · simpa using hx
          · exact hall y hmem⟩

theorem takeWhile_append_all {α : Type} (p : α → Bool) (l1 l2 : List α)
    (h : ∀ x ∈ l1, p x = true) :
    (l1 ++ l2).takeWhile p = l1 ++ l2.takeWhile p := by
  induction l1 with
  | nil => simp
  | cons x xs ih =>
    have hx : p x = true := h x (by simp)
    simp [List.takeWhile_cons, hx, ih (fun y hy => h y (by simp [hy]))]

theorem countP_updateFirst_le_succ {α : Type} (l : List α) (p q : α → Bool)
    (f : α → α) :
    (updateFirst l p f).countP q ≤ l.countP q + 1 := by
  induction l with
  | nil => simp [updateFirst]
  | cons x xs ih =>
    by_cases hx : p x
    · simp only [updateFirst, hx, if_true, List.countP_cons]
      have h1 : (if q (f x) = true then 1 else 0) ≤ 1 := by split <;> omega
      omega
    · simp only [updateFirst, hx, Bool.false_eq_true, if_false, List.countP_cons]
      omega

theorem countP_updateFirst_untouched {α : Type} (l : List α) (p q : α → Bool)
    (f : α → α) (h : ∀ x ∈ l, p x = true → (q x = false ∧ q (f x) = false)) :
    (updateFirst l p f).countP q = l.countP q := by
  induction l with
  | nil => rfl
  | cons x xs ih =>
    by_cases hx : p x
    · obtain ⟨hqx, hqfx⟩ := h x (by simp) hx
      simp [updateFirst, hx, List.countP_cons, hqx, hqfx]
    · simp only [updateFirst, hx, Bool.false_eq_true, if_false, List.countP_cons]
      rw [ih (fun y hy hpy => h y (by simp [hy]) hpy)]

theorem countP_updateFirst_unset {α : Type} (l : List α) (p : α → Bool)
    (f : α → α) (hf : ∀ x, p x = true → p (f x) = false)
    (h : l.countP p ≤ 1) :
    (updateFirst l p f).countP p = 0 := by
  induction l with
  | nil => rfl
  | cons x xs ih =>
    by_cases hx : p x
    · have hfx := hf x hx
      simp only [updateFirst, hx, if_true, List.countP_cons, hfx]
      simp only [List.countP_cons, hx, if_true] at h
      have : xs.countP p = 0 := by omega
      simp [this]
    · simp only [updateFirst, hx, Bool.false_eq_true, if_false, List.countP_cons, hx]
      have hxs : xs.countP p ≤ 1 := by
        simp only [List.countP_cons, hx] at h
        omega
      simp [ih hxs, hx]

theorem mem_updateFirst {α : Type} {l : List α} {p : α → Bool} {f : α → α}
    {y : α} (hy : y ∈ updateFirst l p f) : y ∈ l ∨ ∃ x ∈ l, y = f x := by
  induction l with
  | nil => simp [updateFirst] at hy
  | cons x xs ih =>
    by_cases hx : p x
    · simp only [updateFirst, hx, if_true, List.mem_cons] at hy
      rcases hy with rfl | hmem
      · exact Or.inr ⟨x, by simp, rfl⟩
      · exact Or.inl (by simp [hmem])
    · simp only [updateFirst, hx, Bool.false_eq_true, if_false, List.mem_cons] at hy
      rcases hy with rfl | hmem
      · exact Or.inl (by simp)
      · rcases ih hmem with h | ⟨z, hz, rfl⟩
        · exact Or.inl (by simp [h])
        · exact Or.inr ⟨z, by simp [hz], rfl⟩

/-- `unsetDefault` rewrites only the `default_method` flag: every
document keeps its `business_id` and `customer_uid`. -/
theorem map_uid_unsetDefault (business_id : String) (l : List PaymentMethod) :
    (unsetDefault business_id l).map (fun m => m.customer_uid)
      = l.map (fun m => m.customer_uid) := by
  induction l with
  | nil => rfl
  | cons x xs ih =>
    unfold unsetDefault updateFirst
    split
    · rfl
    · simpa using ih

/-- On a uid of the canonical `business_id + '_ch' + digits` shape the
maximal digit suffix is exactly the digit block: the `'h'` of `'_ch'`
stops the scan. -/
theorem digitSuffix_wellformed (b s : String)
    (hdig : ∀ c ∈ s.data, c.isDigit) :
    digitSuffix (b ++ "_ch" ++ s) = s := by
  unfold digitSuffix
  rw [String.data_append, String.data_append]
  rw [List.append_assoc, List.reverse_append, List.reverse_append, List.append_assoc]
  rw [takeWhile_append_all _ _ _ (fun c hc => hdig c (List.mem_reverse.mp hc))]
  have h2 : ("_ch".data.reverse ++ b.data.reverse : List Char)
      = 'h' :: 'c' :: '_' :: b.data.reverse := rfl
  rw [h2]
  have h3 : List.takeWhile Char.isDigit ('h' :: 'c' :: '_' :: b.data.reverse) = [] := by
    simp [List.takeWhile_cons]
  rw [h3, List.append_nil, List.reverse_reverse]

/-! ### Claims -/

/-- C1: a `PAID` confirmation whose metadata has intent type
`SCHEDULED` sets the matching BillingScheduleEntry's status to `PAID`
and inserts exactly one new `PENDING` entry whose schedule is
`intended_pay_date` plus the plan's cadence in weeks floored to Seoul
local midnight (same local day as `pay_date + 7·w` days, time 0), and
whose merchant uid increments the numeric suffix of the current
merchant uid (`business_id ++ "_ch" ++ digits` becomes
`business_id ++ "_ch" ++ (digits + 1)`). -/
theorem paid_scheduled_advances_cycle
    (db : DB) (r : IamportResult) (cd : CustomData) (digits : String)
    (k w : Nat) (l1 l2 : List ScheduleEntry) (m : ScheduleEntry)
    (hst : r.status = "paid")
    (hcd : parseCustomData r.custom_data = some cd)
    (hty : cd.type = "SCHEDULED")
    (hw : billing_plan_type cd.billing_plan = some w)
    (huid : cd.merchant_uid = cd.business_id ++ "_ch" ++ digits)
    (hd1 : digits.data ≠ [])
    (hd2 : ∀ c ∈ digits.data, c.isDigit)
    (hk : parseNatDigits digits = k)
    (hsch : db.schedule = l1 ++ m :: l2)
    (hm : m.merchant_uid = cd.merchant_uid)
    (hl1 : ∀ e ∈ l1, e.merchant_uid ≠ cd.merchant_uid) :
    ∃ e : ScheduleEntry,
      (paymentHook r db).schedule = (l1 ++ { m with status := "PAID" } :: l2) ++ [e]
      ∧ e.status = "PENDING"
      ∧ e.merchant_uid = cd.business_id ++ "_ch" ++ toString (k + 1)
      ∧ e.schedule % msPerDay = 0
      ∧ e.schedule / msPerDay = (cd.pay_date + (w : Int) * 7 * msPerDay) / msPerDay
      ∧ e.business_id = cd.business_id
      ∧ e.billing_plan = cd.billing_plan
      ∧ e.amount = cd.amount
      ∧ e.vat = cd.vat
      ∧ e.failures = []
      ∧ (paymentHook r db).methods = db.methods := by
  have hsuf : digits ≠ "" := fun hEq => hd1 (by rw [hEq])
  have hnm : nextMerchantUid cd.business_id cd.merchant_uid
      = some (cd.business_id ++ "_ch" ++ toString (k + 1)) := by
    unfold nextMerchantUid
    rw [huid, digitSuffix_wellformed _ _ hd2]
    rw [if_neg hsuf, hk]
  have hupd : updateFirst db.schedule (fun e => e.merchant_uid == cd.merchant_uid)
      (fun e => { e with status := "PAID" }) = l1 ++ { m with status := "PAID" } :: l2 := by
    rw [hsch]
    exact updateFirst_append_cons _ _ _ _ _
      (fun x hx => by simpa using hl1 x hx) (by simpa using hm)
  have hph : paymentHook r db = hookPaid r db := by
    simp [paymentHook, hst, status_type]
  rw [hph]
  unfold hookPaid
  rw [hcd]
  simp only [hty, hnm, hw, Option.getD_some, reduceIte, if_true, eq_self_iff_true, hupd]
  refine ⟨⟨cd.business_id ++ "_ch" ++ toString (k + 1), cd.business_id,
    nextPayDate cd.pay_date w, cd.amount, cd.vat, cd.billing_plan, "PENDING", []⟩,
    ?_, rfl, rfl, ?_, ?_, rfl, rfl, rfl, rfl, rfl, trivial⟩
  · simp [List.append_assoc]
  · show nextPayDate cd.pay_date w % msPerDay = 0
    unfold nextPayDate
    have h := Int.ediv_add_emod (cd.pay_date + (w : Int) * 7 * msPerDay) msPerDay
    have key : cd.pay_date + (w : Int) * 7 * msPerDay
        - (cd.pay_date + (w : Int) * 7 * msPerDay) % msPerDay
        = msPerDay * ((cd.pay_date + (w : Int) * 7 * msPerDay) / msPerDay) := by
      linarith
    rw [key]
    exact Int.mul_emod_right _ _
  · show nextPayDate cd.pay_date w / msPerDay
      = (cd.pay_date + (w : Int) * 7 * msPerDay) / msPerDay
    unfold nextPayDate
    have h := Int.ediv_add_emod (cd.pay_date + (w : Int) * 7 * msPerDay) msPerDay
    have key : cd.pay_date + (w : Int) * 7 * msPerDay
        - (cd.pay_date + (w : Int) * 7 * msPerDay) % msPerDay
        = msPerDay * ((cd.pay_date + (w : Int) * 7 * msPerDay) / msPerDay) := by
      linarith
    rw [key]
    exact Int.mul_ediv_cancel_left _ (by decide)

/-- Concrete billing intent for witnesses: business `B1`, plan
`4_WEEK`, intended pay date 2024-01-01 Seoul midnight (epoch day
19723). -/
def c1p : PayParams :=
  ⟨"B1", "B1_ch3", "SCHEDULED", "4_WEEK", 19723 * msPerDay, 150000, 15000⟩

def c1dm : PaymentMethod := ⟨"B1", "B1_1234", true⟩

def c1cd : CustomData :=
  ⟨"B1", "B1_ch3", "B1_1234", _generateName c1p, "SCHEDULED", "4_WEEK",
    19723 * msPerDay, 150000, 150000, 15000⟩

def c1r : IamportResult :=
  ⟨"paid", "imp_001", "KRW", "card", "BC", "https://receipt", "",
    1704067200, 0, buildCustomData c1p c1dm⟩

def c1m : ScheduleEntry :=
  ⟨"B1_ch3", "B1", 19723 * msPerDay, 150000, 15000, "4_WEEK", "PENDING", []⟩

def c1db : DB := ⟨[c1dm], [c1m], []⟩

theorem paid_scheduled_advances_cycle_witness :
    ∃ e : ScheduleEntry,
      (paymentHook c1r c1db).schedule = ([] ++ { c1m with status := "PAID" } :: []) ++ [e]
      ∧ e.status = "PENDING"
      ∧ e.merchant_uid = c1cd.business_id ++ "_ch" ++ toString (3 + 1)
      ∧ e.schedule % msPerDay = 0
      ∧ e.schedule / msPerDay = (c1cd.pay_date + ((4 : Nat) : Int) * 7 * msPerDay) / msPerDay
      ∧ e.business_id = c1cd.business_id
      ∧ e.billing_plan = c1cd.billing_plan
      ∧ e.amount = c1cd.amount
      ∧ e.vat = c1cd.vat
      ∧ e.failures = []
      ∧ (paymentHook c1r c1db).methods = c1db.methods :=
  paid_scheduled_advances_cycle c1db c1r c1cd "3" 3 4 [] [] c1m
    rfl rfl rfl rfl rfl (by decide) (by decide) rfl rfl rfl (by decide)

/-- C2: when a default method exists, `pay` makes exactly one gateway
call, and schedules exactly one Outcome Reconciler (`paymentHook`)
invocation carrying the gateway's result whenever the transport call
succeeds — whatever the immediate status — and none when the transport
call fails. -/
theorem pay_schedules_hook_exactly_once
    (p : PayParams) (methods : List PaymentMethod)
    (gw : ChargeRequest → Except GatewayError IamportResult) (dm : PaymentMethod)
    (hdm : methods.find? (fun m => m.business_id == p.business_id && m.default_method)
      = some dm) :
    (pay p methods gw).gateway_calls = [buildChargeRequest p dm]
    ∧ (∀ r, gw (buildChargeRequest p dm) = .ok r → (pay p methods gw).hooks = [r])
    ∧ (∀ e, gw (buildChargeRequest p dm) = .error e → (pay p methods gw).hooks = []) := by
  unfold pay
  simp only [hdm]
  cases hgw : gw (buildChargeRequest p dm) with
  | error e =>
    exact ⟨rfl, fun r hr => absurd hr (by simp), fun _ _ => rfl⟩
  | ok r =>
    refine ⟨?_, fun r' hr' => ?_, fun e he => absurd he (by simp)⟩
    · by_cases hs : status_type r.status = some "FAILED" <;> simp [hs]
    · injection hr' with h
      cases h
      by_cases hs : status_type r.status = some "FAILED" <;> simp [hs]

/-- C2 witness: a gateway answering with an immediately *declined*
result (`status = "failed"`) still gets exactly one reconciler
invocation with that result. -/
theorem pay_schedules_hook_exactly_once_witness :
    (pay c1p [c1dm] (fun _ => .ok { c1r with status := "failed", fail_reason := "card declined" })).gateway_calls
      = [buildChargeRequest c1p c1dm]
    ∧ (∀ r, (fun (_ : ChargeRequest) =>
          (.ok { c1r with status := "failed", fail_reason := "card declined" }
            : Except GatewayError IamportResult)) (buildChargeRequest c1p c1dm) = .ok r →
        (pay c1p [c1dm] (fun _ => .ok { c1r with status := "failed", fail_reason := "card declined" })).hooks = [r])
    ∧ (∀ e, (fun (_ : ChargeRequest) =>
          (.ok { c1r with status := "failed", fail_reason := "card declined" }
            : Except GatewayError IamportResult)) (buildChargeRequest c1p c1dm) = .error e →
        (pay c1p [c1dm] (fun _ => .ok { c1r with status := "failed", fail_reason := "card declined" })).hooks = []) :=
  pay_schedules_hook_exactly_once c1p [c1dm] _ c1dm rfl

/-- C3: `pay` on a business with no default payment method rejects
with the `castr_payment_error` no-default-method error and makes no
gateway call (and schedules no reconciler run). -/
theorem pay_no_default_fast_fail
    (p : PayParams) (methods : List PaymentMethod)
    (gw : ChargeRequest → Except GatewayError IamportResult)
    (h : ∀ m ∈ methods, ¬(m.business_id = p.business_id ∧ m.default_method = true)) :
    (pay p methods gw).result = .error (.noDefaultMethod p "castr_payment_error"
        ("Could not find a default payment method for the business ("
          ++ p.business_id ++ ")."))
    ∧ (pay p methods gw).gateway_calls = []
    ∧ (pay p methods gw).hooks = [] := by
  have hfind : methods.find?
      (fun m => m.business_id == p.business_id && m.default_method) = none := by
    rw [List.find?_eq_none]
    intro m hm
    simp only [Bool.and_eq_true, beq_iff_eq]
    intro ⟨h1, h2⟩
    exact h m hm ⟨h1, h2⟩
  unfold pay
  rw [hfind]
  exact ⟨rfl, rfl, rfl⟩

theorem pay_no_default_fast_fail_witness :
    (pay c1p [⟨"B9", "B9_0000", true⟩, ⟨"B1", "B1_1234", false⟩]
        (fun _ => .ok c1r)).result
      = .error (.noDefaultMethod c1p "castr_payment_error"
        ("Could not find a default payment method for the business ("
          ++ c1p.business_id ++ ")."))
    ∧ (pay c1p [⟨"B9", "B9_0000", true⟩, ⟨"B1", "B1_1234", false⟩]
        (fun _ => .ok c1r)).gateway_calls = []
    ∧ (pay c1p [⟨"B9", "B9_0000", true⟩, ⟨"B1", "B1_1234", false⟩]
        (fun _ => .ok c1r)).hooks = [] :=
  pay_no_default_fast_fail c1p _ _ (by decide)

/-- C6: the ConfirmationMetadata round-trips.  The metadata serialized
by `pay` into the charge request, once echoed verbatim by the gateway
and deserialized by the Outcome Reconciler, recovers exactly the
billing-intent fields that were serialized: business, merchant uid,
customer token, display name, intent type, plan, intended pay date,
amount (and its cancelable copy) and vat. -/
theorem custom_data_roundtrip
    (p : PayParams) (dm : PaymentMethod) (r : IamportResult)
    (hecho : r.custom_data = (buildChargeRequest p dm).custom_data) :
    parseCustomData r.custom_data
      = some { business_id := p.business_id
               merchant_uid := p.merchant_uid
               customer_uid := dm.customer_uid
               name := _generateName p
               type := p.type
               billing_plan := p.billing_plan
               pay_date := p.pay_date
               amount := p.amount
               cancel_amount := p.amount
               vat := p.vat } := by
  rw [hecho]
  rfl

theorem custom_data_roundtrip_witness :
    parseCustomData c1r.custom_data
      = some { business_id := c1p.business_id
               merchant_uid := c1p.merchant_uid
               customer_uid := c1dm.customer_uid
               name := _generateName c1p
               type := c1p.type
               billing_plan := c1p.billing_plan
               pay_date := c1p.pay_date
               amount := c1p.amount
               cancel_amount := c1p.amount
               vat := c1p.vat } :=
  custom_data_roundtrip c1p c1dm c1r rfl

/-- C8: the daily scan submits a `SCHEDULED` billing intent for
exactly the entries with status `PENDING` and schedule at or before
the start of the current local day; a `FAILED` entry is never
selected. -/
theorem scan_submits_exactly_due_pending
    (entries : List ScheduleEntry) (todayStart : Int) :
    (∀ e, e ∈ dueEntries entries todayStart
        ↔ e ∈ entries ∧ e.status = "PENDING" ∧ e.schedule ≤ todayStart)
    ∧ scanSubmissions entries todayStart
        = (dueEntries entries todayStart).map scheduleParamsOf
    ∧ (∀ p ∈ scanSubmissions entries todayStart, p.type = "SCHEDULED")
    ∧ (∀ e ∈ entries, e.status = "FAILED" → e ∉ dueEntries entries todayStart) := by
  refine ⟨fun e => ?_, rfl, fun p hp => ?_, fun e _ hf hdue => ?_⟩
  · unfold dueEntries
    rw [List.mem_filter]
    simp [and_assoc]
  · unfold scanSubmissions at hp
    obtain ⟨e, _, rfl⟩ := List.mem_map.mp hp
    rfl
  · unfold dueEntries at hdue
    have := (List.mem_filter.mp hdue).2
    simp [hf] at this

theorem scan_submits_exactly_due_pending_witness :
    c1m ∈ dueEntries [c1m, { c1m with merchant_uid := "B1_ch4", status := "FAILED" }]
        (19723 * msPerDay)
    ∧ { c1m with merchant_uid := "B1_ch4", status := "FAILED" }
        ∉ dueEntries [c1m, { c1m with merchant_uid := "B1_ch4", status := "FAILED" }]
        (19723 * msPerDay) :=
  ⟨((scan_submits_exactly_due_pending _ (19723 * msPerDay)).1 c1m).mpr
      ⟨by decide, by decide, by decide⟩,
    (scan_submits_exactly_due_pending _ (19723 * msPerDay)).2.2.2 _
      (by decide) (by decide)⟩

/-- C4: a `FAILED` confirmation mutates persisted state only when the
metadata's intent type is `SCHEDULED`; in that case the matching
entry's status becomes `FAILED` and the failure record built from the
confirmation is added to its `failures` sequence, after which
`failures[0]` is most recent by timestamp; any other intent type
mutates nothing. -/
theorem failed_scheduled_records_failure
    (db : DB) (r : IamportResult) (cd : CustomData)
    (hst : r.status = "failed")
    (hcd : parseCustomData r.custom_data = some cd) :
    (cd.type ≠ "SCHEDULED" → paymentHook r db = db)
    ∧ (∀ l1 m l2, cd.type = "SCHEDULED" →
        db.schedule = l1 ++ m :: l2 →
        m.merchant_uid = cd.merchant_uid →
        (∀ e ∈ l1, e.merchant_uid ≠ cd.merchant_uid) →
        ∃ fl h t,
          (paymentHook r db).schedule
            = l1 ++ { m with status := "FAILED", failures := fl } :: l2
          ∧ (paymentHook r db).methods = db.methods
          ∧ (paymentHook r db).transactions = db.transactions
          ∧ fl.Perm (m.failures ++ [mkFailure r cd])
          ∧ mkFailure r cd ∈ fl
          ∧ fl = h :: t
          ∧ (∀ x ∈ fl, x.time_failed ≤ h.time_failed)) := by
  have hph : paymentHook r db = hookFailed r db := by
    simp [paymentHook, hst, status_type]
  rw [hph]
  unfold hookFailed
  rw [hcd]
  constructor
  · intro hne
    simp [hne]
  · intro l1 m l2 hty hsch hm hl1
    simp only [hty, reduceIte]
    set fl := pushSortedFailures m.failures (mkFailure r cd) with hfl
    have hperm : fl.Perm (m.failures ++ [mkFailure r cd]) :=
      List.perm_insertionSort failureDesc _
    have hsorted : List.Sorted failureDesc fl :=
      List.sorted_insertionSort failureDesc _
    have hmem : mkFailure r cd ∈ fl :=
      hperm.mem_iff.mpr (by simp)
    obtain ⟨h, t, hht⟩ : ∃ h t, fl = h :: t := by
      cases hflc : fl with
      | nil => rw [hflc] at hmem; simp at hmem
      | cons h t => exact ⟨h, t, rfl⟩
    refine ⟨fl, h, t, ?_, trivial, trivial, hperm, hmem, hht, ?_⟩
    · rw [hsch]
      rw [updateFirst_append_cons _ _ _ _ _
        (fun x hx => by simpa using hl1 x hx) (by simpa using hm)]
    · intro x hx
      rw [hht] at hx hsorted
      rcases List.mem_cons.mp hx with rfl | hxt
      · exact le_refl _
      · exact (List.sorted_cons.mp hsorted).1 x hxt

/-- An earlier failure already on the schedule entry, older than the
incoming one. -/
def c4fr : FailureRecord := ⟨"imp_000", c1cd, "earlier decline", 1704000000000⟩

def c4m : ScheduleEntry :=
  ⟨"B1_ch3", "B1", 19723 * msPerDay, 150000, 15000, "4_WEEK", "PENDING", [c4fr]⟩

def c4r : IamportResult :=
  ⟨"failed", "imp_002", "KRW", "card", "BC", "", "card declined",
    0, 1704100000, buildCustomData c1p c1dm⟩

def c4db : DB := ⟨[c1dm], [c4m], []⟩

theorem failed_scheduled_records_failure_witness :
    ∃ fl h t,
      (paymentHook c4r c4db).schedule
        = [] ++ { c4m with status := "FAILED", failures := fl } :: []
      ∧ (paymentHook c4r c4db).methods = c4db.methods
      ∧ (paymentHook c4r c4db).transactions = c4db.transactions
      ∧ fl.Perm (c4m.failures ++ [mkFailure c4r c1cd])
      ∧ mkFailure c4r c1cd ∈ fl
      ∧ fl = h :: t
      ∧ (∀ x ∈ fl, x.time_failed ≤ h.time_failed) :=
  (failed_scheduled_records_failure c4db c4r c1cd rfl rfl).2 [] c4m []
    rfl rfl rfl (by decide)

/-- C7: `changeSubscription` with an in-flight `PENDING`/`FAILED`
entry mutates only that single entry and only its `billing_plan` and
`amount` (schedule date, status, merchant uid and failures are kept,
all other entries untouched); with no such entry it fails with the
no-active-schedule error and mutates nothing.  Merchant uids are
assumed pairwise distinct, as the uid sequencing guarantees. -/
theorem changeSubscription_frame
    (business_id new_plan : String) (new_amount : Int) (db : DB)
    (hnodup : (db.schedule.map (fun e => e.merchant_uid)).Nodup) :
    (db.schedule.find? (activeEntry business_id) = none →
      changeSubscription business_id new_plan new_amount db
        = (db, .noActiveSchedule ("Business (" ++ business_id
            ++ ") is either invalid, not yet subscribed, or is missing next payment schedule")))
    ∧ (∀ sp, db.schedule.find? (activeEntry business_id) = some sp →
        ∃ l1 l2, db.schedule = l1 ++ sp :: l2
          ∧ (changeSubscription business_id new_plan new_amount db).1.schedule
              = l1 ++ { sp with billing_plan := new_plan, amount := new_amount } :: l2
          ∧ (changeSubscription business_id new_plan new_amount db).1.methods = db.methods
          ∧ (changeSubscription business_id new_plan new_amount db).1.transactions
              = db.transactions
          ∧ (changeSubscription business_id new_plan new_amount db).2 = .ok) := by
  constructor
  · intro hnone
    unfold changeSubscription
    rw [hnone]
  · intro sp hsp
    obtain ⟨l1, l2, hdec, hall⟩ := find?_decomp hsp
    have huid : ∀ e ∈ l1, (e.merchant_uid == sp.merchant_uid) = false := by
      intro e he
      have hne : e.merchant_uid ≠ sp.merchant_uid := by
        rw [hdec, List.map_append] at hnodup
        have hdisj := (List.nodup_append.mp hnodup).2.2
        intro heq
        exact hdisj (List.mem_map_of_mem _ he) (by simp [heq])
      simpa using hne
    unfold changeSubscription
    rw [hsp]
    refine ⟨l1, l2, hdec, ?_, rfl, rfl, rfl⟩
    show updateFirst db.schedule (fun e => e.merchant_uid == sp.merchant_uid) _
      = l1 ++ { sp with billing_plan := new_plan, amount := new_amount } :: l2
    rw [hdec, updateFirst_append_cons _ _ _ _ _ huid (by simp)]

def c7other : ScheduleEntry :=
  ⟨"B2_ch1", "B2", 19000 * msPerDay, 99000, 9900, "26_WEEK", "PENDING", []⟩

def c7db : DB := ⟨[c1dm], [c7other, c1m], []⟩

theorem changeSubscription_frame_witness :
    ∃ l1 l2, c7db.schedule = l1 ++ c1m :: l2
      ∧ (changeSubscription "B1" "26_WEEK" 90000 c7db).1.schedule
          = l1 ++ { c1m with billing_plan := "26_WEEK", amount := 90000 } :: l2
      ∧ (changeSubscription "B1" "26_WEEK" 90000 c7db).1.methods = c7db.methods
      ∧ (changeSubscription "B1" "26_WEEK" 90000 c7db).1.transactions = c7db.transactions
      ∧ (changeSubscription "B1" "26_WEEK" 90000 c7db).2 = .ok :=
  (changeSubscription_frame "B1" "26_WEEK" 90000 c7db (by decide)).2 c1m rfl

/-- The unset step does not change which customer uids are stored, so
the `matchedCount` test of the set step sees the original uids. -/
theorem any_uid_unsetDefault (b c : String) (l : List PaymentMethod) :
    (unsetDefault b l).any (fun m => m.customer_uid == c)
      = l.any (fun m => m.customer_uid == c) := by
  induction l with
  | nil => rfl
  | cons x xs ih =>
    simp only [unsetDefault, updateFirst] at ih ⊢
    by_cases hx : (x.business_id == b && x.default_method) = true
    · simp [hx]
    · simp only [hx, Bool.false_eq_true, if_false, List.any_cons]
      rw [ih]

/-- C9: when `setAsDefault` succeeds and the business has a `FAILED`
schedule entry, that entry's billing intent is handed to the Payment
Submitter as a `SCHEDULED` intent with `pay_date = now` and the
entry's stored merchant uid, billing plan, amount and vat; the
response is the plain success payload either way (the resubmission's
outcome is never surfaced: the source discards it). -/
theorem setAsDefault_resubmits_failed
    (business_id customer_uid : String) (db : DB) (now : Int)
    (hexist : ∃ m ∈ db.methods, m.customer_uid = customer_uid) :
    (setAsDefault business_id customer_uid db now).2.1 = .ok customer_uid
    ∧ (∀ fe, db.schedule.find?
          (fun e => e.business_id == business_id && e.status == "FAILED") = some fe →
        (setAsDefault business_id customer_uid db now).2.2
          = [{ business_id := business_id
               merchant_uid := fe.merchant_uid
               type := "SCHEDULED"
               billing_plan := fe.billing_plan
               pay_date := now
               amount := fe.amount
               vat := fe.vat }])
    ∧ (db.schedule.find?
          (fun e => e.business_id == business_id && e.status == "FAILED") = none →
        (setAsDefault business_id customer_uid db now).2.2 = []) := by
  have hany : (unsetDefault business_id db.methods).any
      (fun m => m.customer_uid == customer_uid) = true := by
    rw [any_uid_unsetDefault]
    obtain ⟨m, hm, huid⟩ := hexist
    exact List.any_eq_true.mpr ⟨m, hm, by simp [huid]⟩
  unfold setAsDefault
  simp only [hany, if_true]
  refine ⟨trivial, fun fe hfe => ?_, fun hnone => ?_⟩
  · have hb : fe.business_id = business_id := by
      have h := List.find?_some hfe
      simp only [Bool.and_eq_true, beq_iff_eq] at h
      exact h.1
    rw [hfe]
    simp [hb]
  · rw [hnone]

def c9fe : ScheduleEntry :=
  ⟨"B1_ch3", "B1", 19723 * msPerDay, 150000, 15000, "4_WEEK", "FAILED", [c4fr]⟩

def c9db : DB := ⟨[⟨"B1", "B1_old", true⟩, c1dm], [c9fe], []⟩

theorem setAsDefault_resubmits_failed_witness :
    (setAsDefault "B1" "B1_1234" c9db (19800 * msPerDay)).2.1 = .ok "B1_1234"
    ∧ (setAsDefault "B1" "B1_1234" c9db (19800 * msPerDay)).2.2
        = [{ business_id := "B1"
             merchant_uid := c9fe.merchant_uid
             type := "SCHEDULED"
             billing_plan := c9fe.billing_plan
             pay_date := 19800 * msPerDay
             amount := c9fe.amount
             vat := c9fe.vat }] :=
  ⟨(setAsDefault_resubmits_failed "B1" "B1_1234" c9db (19800 * msPerDay)
      ⟨c1dm, by decide, rfl⟩).1,
    (setAsDefault_resubmits_failed "B1" "B1_1234" c9db (19800 * msPerDay)
      ⟨c1dm, by decide, rfl⟩).2.1 c9fe rfl⟩

/-- C10: `setAsDefault` with a customer uid matching no stored method
answers the not-found error, but only after the unset step has run:
with the single-default invariant holding beforehand, the error path
leaves the business with zero default methods; no resubmission is
made and the schedule is untouched. -/
theorem setAsDefault_missing_uid_still_unsets
    (business_id customer_uid : String) (db : DB) (now : Int)
    (hno : ∀ m ∈ db.methods, m.customer_uid ≠ customer_uid)
    (hone : countDefaults business_id db.methods ≤ 1) :
    (setAsDefault business_id customer_uid db now).2.1
      = .notFound ("No payment method was found for the given 'customer_uid' ("
          ++ customer_uid ++ ").")
    ∧ (∀ m ∈ (setAsDefault business_id customer_uid db now).1.methods,
        m.business_id = business_id → m.default_method = false)
    ∧ (setAsDefault business_id customer_uid db now).2.2 = []
    ∧ (setAsDefault business_id customer_uid db now).1.schedule = db.schedule := by
  have hany : (unsetDefault business_id db.methods).any
      (fun m => m.customer_uid == customer_uid) = false := by
    rw [any_uid_unsetDefault, List.any_eq_false]
    intro m hm
    simp [hno m hm]
  unfold setAsDefault
  simp only [hany, Bool.false_eq_true, if_false]
  refine ⟨trivial, ?_, trivial, trivial⟩
  intro m hm hb
  have hcount : (unsetDefault business_id db.methods).countP
      (fun x => x.business_id == business_id && x.default_method) = 0 := by
    unfold unsetDefault
    exact countP_updateFirst_unset _ _ _ (fun x _ => by simp) hone
  have hnm := (List.countP_eq_zero.mp hcount) m hm
  simp only [Bool.and_eq_true, beq_iff_eq, not_and] at hnm
  simpa using hnm hb

def c10db : DB := ⟨[⟨"B1", "B1_old", true⟩], [c9fe], []⟩

theorem setAsDefault_missing_uid_still_unsets_witness :
    (setAsDefault "B1" "B1_9999" c10db 0).2.1
      = .notFound ("No payment method was found for the given 'customer_uid' ("
          ++ "B1_9999" ++ ").")
    ∧ (∀ m ∈ (setAsDefault "B1" "B1_9999" c10db 0).1.methods,
        m.business_id = "B1" → m.default_method = false)
    ∧ (setAsDefault "B1" "B1_9999" c10db 0).2.2 = []
    ∧ (setAsDefault "B1" "B1_9999" c10db 0).1.schedule = c10db.schedule :=
  setAsDefault_missing_uid_still_unsets "B1" "B1_9999" c10db 0
    (by decide) (by decide)

theorem countP_updateFirst_le_of_f_false {α : Type} (l : List α) (p q : α → Bool)
    (f : α → α) (hf : ∀ x, q (f x) = false) :
    (updateFirst l p f).countP q ≤ l.countP q := by
  induction l with
  | nil => simp [updateFirst]
  | cons x xs ih =>
    by_cases hx : p x
    · simp only [updateFirst, hx, if_true, List.countP_cons, hf x,
        Bool.false_eq_true, if_false]
      omega
    · simp only [updateFirst, hx, Bool.false_eq_true, if_false, List.countP_cons]
      have := ih
      omega

/-- The membership form of the invariant coincides with the
per-business count bound. -/
theorem atMostOneDefault_iff (l : List PaymentMethod) :
    atMostOneDefault l ↔ ∀ b, countDefaults b l ≤ 1 := by
  constructor
  · intro h b
    by_cases hc : 0 < countDefaults b l
    · obtain ⟨m, hm, hpm⟩ := List.countP_pos_iff.mp hc
      have hb : m.business_id = b := by
        simp only [Bool.and_eq_true, beq_iff_eq] at hpm
        exact hpm.1
      have := h m hm
      unfold countDefaults
      rw [← hb]
      exact this
    · unfold countDefaults at hc ⊢
      omega
  · intro h m _
    exact h m.business_id

/-- C5 counterexample: a store where the single-default invariant
holds, yet one completed `setAsDefault` call — whose `customer_uid`
belongs to a different business than its `business_id` argument —
leaves business `B2` with two default methods.  The set step filters
on `customer_uid` alone, so `B2`'s standing default is never unset. -/
theorem setAsDefault_can_break_single_default :
    atMostOneDefault
      (DB.mk [⟨"B2", "B2_0001", true⟩, ⟨"B2", "B2_0002", false⟩] [] []).methods
    ∧ ¬ atMostOneDefault
      (setAsDefault "B1" "B2_0002"
        (DB.mk [⟨"B2", "B2_0001", true⟩, ⟨"B2", "B2_0002", false⟩] [] []) 0).1.methods := by
  constructor
  · decide
  · decide

/-- C5 (amended): at most one stored method per business is default
at quiescent points.  `createPaymentMethod`'s store write always
preserves the invariant (it writes `default_method: false`);
`setAsDefault` preserves it provided the stored method carrying the
given `customer_uid` belongs to the given `business_id` — without
that proviso the set step, filtering on `customer_uid` alone, can give
the uid's owner a second default. -/
theorem default_method_invariant_preserved :
    (∀ b c l, atMostOneDefault l → atMostOneDefault (upsertPaymentMethod b c l))
    ∧ (∀ b c db now, atMostOneDefault db.methods →
        (∀ m ∈ db.methods, m.customer_uid = c → m.business_id = b) →
        atMostOneDefault (setAsDefault b c db now).1.methods) := by
  constructor
  · intro b c l hinv
    rw [atMostOneDefault_iff] at hinv ⊢
    intro b'
    unfold upsertPaymentMethod countDefaults
    split
    · exact le_trans (countP_updateFirst_le_of_f_false _ _ _ _ (fun x => by simp))
        (hinv b')
    · rw [List.countP_append]
      have h0 : List.countP
          (fun m => m.business_id == b' && m.default_method)
          [PaymentMethod.mk b c false] = 0 := by simp
      rw [h0]
      simpa using hinv b'
  · intro b c db now hinv huid
    rw [atMostOneDefault_iff] at hinv ⊢
    intro b'
    have h1b : countDefaults b (unsetDefault b db.methods) = 0 := by
      unfold countDefaults unsetDefault
      exact countP_updateFirst_unset _ _ _ (fun x _ => by simp) (hinv b)
    have h1o : ∀ b'', b'' ≠ b →
        countDefaults b'' (unsetDefault b db.methods)
          = countDefaults b'' db.methods := by
      intro b'' hne
      unfold countDefaults unsetDefault
      refine countP_updateFirst_untouched _ _ _ _ (fun x _ hpx => ?_)
      simp only [Bool.and_eq_true, beq_iff_eq] at hpx
      have hneq : (x.business_id == b'') = false := by
        rw [beq_eq_false_iff_ne, hpx.1]
        exact Ne.symm hne
      exact ⟨by simp [hneq], by simp [hneq]⟩
    by_cases hmem : (unsetDefault b db.methods).any (fun m => m.customer_uid == c) = true
    · have hred : (setAsDefault b c db now).1.methods
          = setDefaultByUid c (unsetDefault b db.methods) := by
        unfold setAsDefault
        simp only [hmem, if_true]
      rw [hred]
      by_cases hb' : b' = b
      · subst hb'
        have hle := countP_updateFirst_le_succ (unsetDefault b' db.methods)
          (fun m => m.customer_uid == c)
          (fun m => m.business_id == b' && m.default_method)
          (fun m => { m with default_method := true })
        unfold countDefaults at h1b ⊢
        unfold setDefaultByUid
        omega
      · have htrans : ∀ x ∈ unsetDefault b db.methods,
            x.customer_uid = c → x.business_id = b := by
          intro x hx hxc
          rcases mem_updateFirst hx with hmem' | ⟨y, hy, rfl⟩
          · exact huid x hmem' hxc
          · exact huid y hy hxc
        have heq : countDefaults b' (setDefaultByUid c (unsetDefault b db.methods))
            = countDefaults b' (unsetDefault b db.methods) := by
          unfold countDefaults setDefaultByUid
          refine countP_updateFirst_untouched _ _ _ _ (fun x hx hpx => ?_)
          have hxc : x.customer_uid = c := by simpa using hpx
          have hneq : (x.business_id == b') = false := by
            rw [beq_eq_false_iff_ne, htrans x hx hxc]
            exact Ne.symm hb'
          exact ⟨by simp [hneq], by simp [hneq]⟩
        rw [heq, h1o b' hb']
        exact hinv b'
    · have hmem' : (unsetDefault b db.methods).any (fun m => m.customer_uid == c)
          = false := by
        simpa using hmem
      have hred : (setAsDefault b c db now).1.methods
          = unsetDefault b db.methods := by
        unfold setAsDefault
        simp only [hmem', Bool.false_eq_true, if_false]
      rw [hred]
      by_cases hb' : b' = b
      · subst hb'
        rw [h1b]
        omega
      · rw [h1o b' hb']
        exact hinv b'

/-- C5 (amended) witness: a well-formed call — the uid belongs to the
business being updated — keeps the invariant. -/
theorem default_method_invariant_preserved_witness :
    atMostOneDefault
      (setAsDefault "B1" "B1_1234"
        (DB.mk [⟨"B1", "B1_old", true⟩, ⟨"B1", "B1_1234", false⟩] [] []) 0).1.methods :=
  default_method_invariant_preserved.2 "B1" "B1_1234"
    (DB.mk [⟨"B1", "B1_old", true⟩, ⟨"B1", "B1_1234", false⟩] [] []) 0
    (by decide) (by decide)

end Castr
